import Mathlib

/-!
Verification of the spectral-suite forensic proxy (apps/forensic-proxy/main.py).

The program is a thin FastAPI layer over an external extraction library
(yt-dlp) and an external HTTP fetch (requests).  We embed it shallowly:

* the environment is the value of the YOUTUBE_COOKIES variable, an
  `Option String` (none when unset; Python truthiness makes the empty
  string behave like unset);
* the extraction library call `ydl.extract_info` is an oracle of type
  `Except String InfoDict`: either it raises (error message) or returns a
  dictionary, modelled as an association list of JSON-like values;
* the upstream fetch `requests.get(..., stream=True)` is an oracle of type
  `Except String (List (List Nat))`: either it raises or yields the list of
  byte chunks that `iter_content` produces;
* side effects (writing the cookie file, calling the extraction library,
  calling the upstream fetch) are recorded in an event trace so that
  ordering and call counts can be stated.

Each handler is a pure function from the request data and the two oracles
to an `Except HTTPError` result paired with its event trace, mirroring the
Python control flow line by line.
-/

namespace ForensicProxy

/-- Decidable equality of `Except` results, for evaluating the handlers on
concrete inputs. -/
instance exceptDecEq {ε α : Type} [DecidableEq ε] [DecidableEq α] :
    DecidableEq (Except ε α) := fun a b =>
  match a, b with
  | Except.error e1, Except.error e2 =>
      if h : e1 = e2 then isTrue (by rw [h]) else isFalse (by simp [h])
  | Except.error _, Except.ok _ => isFalse (by simp)
  | Except.ok _, Except.error _ => isFalse (by simp)
  | Except.ok v1, Except.ok v2 =>
      if h : v1 = v2 then isTrue (by rw [h]) else isFalse (by simp [h])

/-- A JSON-like value as produced by the extraction library and returned in
responses (`None` in Python becomes `null`). -/
inductive JVal where
  | str : String → JVal
  | num : Int → JVal
  | bool : Bool → JVal
  | null : JVal
deriving Repr, DecidableEq

/-- A Python dictionary with string keys, as an association list. -/
abbrev InfoDict := List (String × JVal)

/-- Python `d.get(k)` / `k in d` lookup on an association list. -/
def dictGet (info : InfoDict) (k : String) : Option JVal :=
  match info with
  | [] => none
  | (k2, v) :: rest => if k2 = k then some v else dictGet rest k

/-- FastAPI `HTTPException(status_code=..., detail=...)`. -/
structure HTTPError where
  status : Nat
  detail : String
deriving Repr, DecidableEq

/-- `isPrefixList pat s` : does the character list `s` start with `pat`? -/
def isPrefixList : List Char → List Char → Bool
  | [], _ => true
  | _ :: _, [] => false
  | c :: cs, d :: ds => c == d && isPrefixList cs ds

/-- `containsList pat s` : does `pat` occur as a contiguous sublist of `s`? -/
def containsList : List Char → List Char → Bool
  | pat, [] => isPrefixList pat []
  | pat, c :: rest => isPrefixList pat (c :: rest) || containsList pat rest

/-- Python substring test `pat in s`. -/
def strContains (s pat : String) : Bool :=
  containsList pat.data s.data

/-- The `extractor_args.youtube` sub-dictionary of the yt-dlp options. -/
structure ExtractorArgs where
  player_client : List String
  player_skip : List String
deriving Repr, DecidableEq

/-- The yt-dlp option dictionary assembled by `get_ydl_opts`.  Keys absent
from the Python dictionary are modelled by their yt-dlp defaults
(`cookiefile := none`, `force_ipv4 := false`, `ignoreerrors := false`). -/
structure YdlOpts where
  format : String
  quiet : Bool
  no_warnings : Bool
  noplaylist : Bool
  http_headers : List (String × String)
  cookiefile : Option String
  force_ipv4 : Bool
  extractor_args : ExtractorArgs
  ignoreerrors : Bool
deriving Repr, DecidableEq

/-- The Mobile Safari client-spoofing headers (main.py lines 69-74). -/
def spoofHeaders : List (String × String) :=
  [("User-Agent", "Mozilla/5.0 (iPhone; CPU iPhone OS 17_5 like Mac OS X) AppleWebKit/605.1.15 (KHTML, like Gecko) Version/17.5 Mobile/15E148 Safari/604.1"),
   ("Accept", "text/html,application/xhtml+xml,application/xml;q=0.9,*/*;q=0.8"),
   ("Accept-Language", "en-US,en;q=0.9"),
   ("Sec-Fetch-Mode", "navigate")]

/-- Python truthiness of `os.environ.get("YOUTUBE_COOKIES")`: an unset
variable gives `None` (falsy) and an empty string is also falsy. -/
def truthy : Option String → Bool
  | none => false
  | some s => s != ""

/-- `get_ydl_opts` (main.py lines 55-115): assembles the yt-dlp options from
the presence of the YOUTUBE_COOKIES environment variable and returns them
together with the list of file writes (path, contents) it performed. -/
def get_ydl_opts (env : Option String) : YdlOpts × List (String × String) :=
  let has_cookies := truthy env
  let writes : List (String × String) :=
    if has_cookies then [("cookies.txt", env.getD "")] else []
  let base_opts : YdlOpts :=
    { format := "bestaudio/best"
      quiet := true
      no_warnings := true
      noplaylist := true
      http_headers := spoofHeaders
      cookiefile := none
      force_ipv4 := false
      extractor_args := ⟨[], []⟩
      ignoreerrors := false }
  let opts :=
    if has_cookies then
      { base_opts with
          cookiefile := some "cookies.txt"
          extractor_args := ⟨["web"], ["configs", "js"]⟩ }
    else
      { base_opts with
          force_ipv4 := true
          extractor_args := ⟨["ios", "android"], ["webpage", "configs", "js"]⟩ }
  (opts, writes)

/-- Observable side effects of a request, in order. -/
inductive Event where
  | fileWrite : String → String → Event
  | extractCall : YdlOpts → Event
  | fetchCall : Event
deriving Repr, DecidableEq

/-- Is an event a call into the extraction library? -/
def isExtract : Event → Bool
  | Event.extractCall _ => true
  | _ => false

/-- Is an event an upstream HTTP fetch? -/
def isFetch : Event → Bool
  | Event.fetchCall => true
  | _ => false

/-- Number of extraction-library invocations in a trace. -/
def extractCalls (tr : List Event) : Nat := tr.countP isExtract

/-- Number of upstream fetches in a trace. -/
def fetchCalls (tr : List Event) : Nat := tr.countP isFetch

/-- Event trace of one `get_ydl_opts` call followed by one extraction call
with the given options. -/
def optsTrace (env : Option String) (opts : YdlOpts) : List Event :=
  (get_ydl_opts env).2.map (fun w => Event.fileWrite w.1 w.2) ++
    [Event.extractCall opts]

/-- `get_best_audio_url` (main.py lines 117-132): builds the options, calls
the extraction library once, and returns the value of the `url` key; any
exception (a raised one, or the internal `No direct URL found` one) is
caught and wrapped into an HTTP 400 `Failed to extract audio` error. -/
def get_best_audio_url (env : Option String) (extract : Except String InfoDict) :
    Except HTTPError JVal × List Event :=
  let tr := optsTrace env (get_ydl_opts env).1
  match extract with
  | Except.error e => (Except.error ⟨400, "Failed to extract audio: " ++ e⟩, tr)
  | Except.ok info =>
    match dictGet info "url" with
    | some u => (Except.ok u, tr)
    | none => (Except.error ⟨400, "Failed to extract audio: No direct URL found"⟩, tr)

/-- `health_check` (main.py lines 134-136): the handler ignores environment
and query data and returns status 200 with a constant JSON body. -/
def health_check (_env : Option String) (_query : List (String × String)) :
    Nat × List (String × JVal) :=
  (200, [("status", JVal.str "operational"), ("service", JVal.str "forensic-proxy")])

/-- `get_video_info` (main.py lines 138-157): builds the options, switches on
`ignoreerrors`, calls the extraction library once, and returns the
five-field metadata object with `Unknown Title` / null defaults; an
extraction exception is caught and wrapped into HTTP 400. An `Except.ok`
result is served by FastAPI with status 200. -/
def get_video_info (env : Option String) (_url : String)
    (extract : Except String InfoDict) :
    Except HTTPError (List (String × JVal)) × List Event :=
  let ydl_opts := { (get_ydl_opts env).1 with ignoreerrors := true }
  let tr := optsTrace env ydl_opts
  match extract with
  | Except.error e => (Except.error ⟨400, "Failed to fetch info: " ++ e⟩, tr)
  | Except.ok info =>
    (Except.ok
      [("title", (dictGet info "title").getD (JVal.str "Unknown Title")),
       ("thumbnail", (dictGet info "thumbnail").getD JVal.null),
       ("duration", (dictGet info "duration").getD JVal.null),
       ("uploader", (dictGet info "uploader").getD JVal.null),
       ("view_count", (dictGet info "view_count").getD JVal.null)], tr)

/-- The streaming response of `/resolve`: the chunks handed to
`StreamingResponse`, the media type, and the response headers. -/
structure StreamResp where
  chunks : List (List Nat)
  media_type : String
  headers : List (String × String)
deriving Repr, DecidableEq

/-- The bytes the caller receives: the concatenation of the chunks. -/
def delivered (s : StreamResp) : List Nat := s.chunks.flatten

/-- `resolve_audio` (main.py lines 159-190): rejects non-YouTube URLs with
400 before doing anything else; otherwise resolves the stream URL via
`get_best_audio_url` (re-raising its HTTPException unchanged), performs the
upstream fetch, and returns the chunk stream with the attachment header;
any non-HTTPException failure is caught and wrapped into HTTP 500. -/
def resolve_audio (env : Option String) (url : String)
    (extract : Except String InfoDict)
    (fetch : Except String (List (List Nat))) :
    Except HTTPError StreamResp × List Event :=
  if !(strContains url "youtube.com") && !(strContains url "youtu.be") then
    (Except.error ⟨400, "Only YouTube URLs are supported currently."⟩, [])
  else
    match get_best_audio_url env extract, fetch with
    | (Except.error e, tr), _ => (Except.error e, tr)
    | (Except.ok _stream_url, tr), Except.error e =>
        (Except.error ⟨500, e⟩, tr ++ [Event.fetchCall])
    | (Except.ok _stream_url, tr), Except.ok chunks =>
        (Except.ok
          { chunks := chunks
            media_type := "audio/mpeg"
            headers := [("Content-Disposition", "attachment; filename=\"forensic-audio.mp3\"")] },
         tr ++ [Event.fetchCall])

/-! ### Helper lemmas -/

/-- The file writes of `get_ydl_opts` are the cookie write exactly when the
environment variable is truthy. -/
lemma ydl_writes_eq (env : Option String) :
    (get_ydl_opts env).2 =
      if truthy env then [("cookies.txt", env.getD "")] else [] := rfl

/-- The trace of one option assembly plus one extraction call, fully
evaluated. -/
lemma optsTrace_eq (env : Option String) (opts : YdlOpts) :
    optsTrace env opts =
      (if truthy env then [Event.fileWrite "cookies.txt" (env.getD "")] else []) ++
        [Event.extractCall opts] := by
  unfold optsTrace
  rw [ydl_writes_eq]
  cases truthy env <;> simp

/-- Each `optsTrace` contains exactly one extraction call. -/
lemma extractCalls_optsTrace (env : Option String) (opts : YdlOpts) :
    extractCalls (optsTrace env opts) = 1 := by
  rw [optsTrace_eq]
  unfold extractCalls
  cases truthy env <;> simp [isExtract]

/-- `get_best_audio_url` always performs exactly the option-assembly trace. -/
lemma best_audio_trace (env : Option String) (extract : Except String InfoDict) :
    (get_best_audio_url env extract).2 = optsTrace env (get_ydl_opts env).1 := by
  cases extract with
  | error e => rfl
  | ok info =>
    cases hd : dictGet info "url" <;> simp [get_best_audio_url, hd]

/-- The exact result of `get_best_audio_url` on a raising extraction. -/
lemma best_audio_of_raise (env : Option String) (m : String) :
    (get_best_audio_url env (Except.error m)).1 =
      Except.error ⟨400, "Failed to extract audio: " ++ m⟩ := rfl

/-- The exact result of `get_best_audio_url` when the `url` key is there. -/
lemma best_audio_of_url (env : Option String) (info : InfoDict) (u : JVal)
    (hd : dictGet info "url" = some u) :
    (get_best_audio_url env (Except.ok info)).1 = Except.ok u := by
  simp [get_best_audio_url, hd]

/-- The exact result of `get_best_audio_url` when the `url` key is absent. -/
lemma best_audio_of_no_url (env : Option String) (info : InfoDict)
    (hd : dictGet info "url" = none) :
    (get_best_audio_url env (Except.ok info)).1 =
      Except.error ⟨400, "Failed to extract audio: No direct URL found"⟩ := by
  simp [get_best_audio_url, hd]

/-- Every error produced by `get_best_audio_url` carries status 400. -/
lemma best_audio_error_status (env : Option String) (extract : Except String InfoDict)
    (e : HTTPError) (h : (get_best_audio_url env extract).1 = Except.error e) :
    e.status = 400 := by
  cases extract with
  | error m =>
    rw [best_audio_of_raise] at h
    injection h with h2
    rw [← h2]
  | ok info =>
    cases hd : dictGet info "url" with
    | none =>
      rw [best_audio_of_no_url env info hd] at h
      injection h with h2
      rw [← h2]
    | some u =>
      rw [best_audio_of_url env info u hd] at h
      exact absurd h (by simp)

/-- The full result pair of `get_best_audio_url` on a raising extraction. -/
lemma best_audio_pair_raise (env : Option String) (m : String) :
    get_best_audio_url env (Except.error m) =
      (Except.error ⟨400, "Failed to extract audio: " ++ m⟩,
       optsTrace env (get_ydl_opts env).1) := rfl

/-- The full result pair of `get_best_audio_url` when the `url` key is
there. -/
lemma best_audio_pair_url (env : Option String) (info : InfoDict) (u : JVal)
    (hd : dictGet info "url" = some u) :
    get_best_audio_url env (Except.ok info) =
      (Except.ok u, optsTrace env (get_ydl_opts env).1) := by
  simp [get_best_audio_url, hd]

/-- The full result pair of `get_best_audio_url` when the `url` key is
absent. -/
lemma best_audio_pair_no_url (env : Option String) (info : InfoDict)
    (hd : dictGet info "url" = none) :
    get_best_audio_url env (Except.ok info) =
      (Except.error ⟨400, "Failed to extract audio: No direct URL found"⟩,
       optsTrace env (get_ydl_opts env).1) := by
  simp [get_best_audio_url, hd]

/-- A URL that passes the YouTube check falsifies the rejection guard. -/
lemma url_check_false (url : String)
    (hy : (strContains url "youtube.com" || strContains url "youtu.be") = true) :
    (!(strContains url "youtube.com") && !(strContains url "youtu.be")) = false := by
  cases ha : strContains url "youtube.com" <;>
    cases hb : strContains url "youtu.be" <;>
      simp [ha, hb] at hy ⊢

/-- `resolve_audio` on a non-YouTube URL: immediate 400, empty trace. -/
lemma resolve_reject (env : Option String) (url : String)
    (extract : Except String InfoDict) (fetch : Except String (List (List Nat)))
    (h1 : strContains url "youtube.com" = false)
    (h2 : strContains url "youtu.be" = false) :
    resolve_audio env url extract fetch =
      (Except.error ⟨400, "Only YouTube URLs are supported currently."⟩, []) := by
  simp [resolve_audio, h1, h2]

/-- `resolve_audio` when the extraction raises: the 400 from
`get_best_audio_url` is re-raised, no fetch happens. -/
lemma resolve_of_extract_error (env : Option String) (url : String)
    (fetch : Except String (List (List Nat))) (m : String)
    (hy : (strContains url "youtube.com" || strContains url "youtu.be") = true) :
    resolve_audio env url (Except.error m) fetch =
      (Except.error ⟨400, "Failed to extract audio: " ++ m⟩,
       optsTrace env (get_ydl_opts env).1) := by
  simp [resolve_audio, url_check_false url hy, best_audio_pair_raise]

/-- `resolve_audio` when the extraction result has no `url` key. -/
lemma resolve_of_no_url (env : Option String) (url : String)
    (fetch : Except String (List (List Nat))) (info : InfoDict)
    (hy : (strContains url "youtube.com" || strContains url "youtu.be") = true)
    (hd : dictGet info "url" = none) :
    resolve_audio env url (Except.ok info) fetch =
      (Except.error ⟨400, "Failed to extract audio: No direct URL found"⟩,
       optsTrace env (get_ydl_opts env).1) := by
  simp [resolve_audio, url_check_false url hy, best_audio_pair_no_url env info hd]

/-- `resolve_audio` when the upstream fetch raises: HTTP 500. -/
lemma resolve_of_fetch_error (env : Option String) (url : String)
    (info : InfoDict) (u : JVal) (m : String)
    (hy : (strContains url "youtube.com" || strContains url "youtu.be") = true)
    (hd : dictGet info "url" = some u) :
    resolve_audio env url (Except.ok info) (Except.error m) =
      (Except.error ⟨500, m⟩,
       optsTrace env (get_ydl_opts env).1 ++ [Event.fetchCall]) := by
  simp [resolve_audio, url_check_false url hy, best_audio_pair_url env info u hd]

/-- `resolve_audio` on the all-success path: the chunk stream is forwarded
with the attachment header. -/
lemma resolve_of_ok (env : Option String) (url : String)
    (info : InfoDict) (u : JVal) (chunks : List (List Nat))
    (hy : (strContains url "youtube.com" || strContains url "youtu.be") = true)
    (hd : dictGet info "url" = some u) :
    resolve_audio env url (Except.ok info) (Except.ok chunks) =
      (Except.ok ⟨chunks, "audio/mpeg",
        [("Content-Disposition", "attachment; filename=\"forensic-audio.mp3\"")]⟩,
       optsTrace env (get_ydl_opts env).1 ++ [Event.fetchCall]) := by
  simp [resolve_audio, url_check_false url hy, best_audio_pair_url env info u hd]

/-- A failing YouTube check means both substring tests are false. -/
lemma url_check_split (url : String)
    (hy : ¬(strContains url "youtube.com" || strContains url "youtu.be") = true) :
    strContains url "youtube.com" = false ∧ strContains url "youtu.be" = false := by
  cases ha : strContains url "youtube.com" <;>
    cases hb : strContains url "youtu.be" <;>
      simp [ha, hb] at hy ⊢

/-- `get_video_info` always performs exactly the option-assembly trace with
the `ignoreerrors` switch set. -/
lemma video_info_trace (env : Option String) (url : String)
    (extract : Except String InfoDict) :
    (get_video_info env url extract).2 =
      optsTrace env { (get_ydl_opts env).1 with ignoreerrors := true } := by
  cases extract <;> rfl

/-- Appending the fetch event does not change the extraction-call count. -/
lemma extractCalls_append_fetch (tr : List Event) :
    extractCalls (tr ++ [Event.fetchCall]) = extractCalls tr := by
  simp [extractCalls, List.countP_append, List.countP_cons, List.countP_nil, isExtract]

/-! ### Claims -/

/-- C1: every /resolve request that succeeds yields the chunked byte stream
with the `Content-Disposition: attachment` header (and the audio media
type); every /resolve request that fails yields status 400 or 500. -/
theorem resolve_success_headers_or_error_status (env : Option String)
    (url : String) (extract : Except String InfoDict)
    (fetch : Except String (List (List Nat))) :
    (∀ s, (resolve_audio env url extract fetch).1 = Except.ok s →
      s.headers = [("Content-Disposition", "attachment; filename=\"forensic-audio.mp3\"")] ∧
      s.media_type = "audio/mpeg") ∧
    (∀ e, (resolve_audio env url extract fetch).1 = Except.error e →
      e.status = 400 ∨ e.status = 500) := by
  by_cases hy : (strContains url "youtube.com" || strContains url "youtu.be") = true
  · cases extract with
    | error m =>
      rw [resolve_of_extract_error env url fetch m hy]
      constructor
      · intro s hs; simp at hs
      · intro e he
        have h2 := Except.error.inj he
        rw [← h2]
        left; rfl
    | ok info =>
      cases hd : dictGet info "url" with
      | none =>
        rw [resolve_of_no_url env url fetch info hy hd]
        constructor
        · intro s hs; simp at hs
        · intro e he
          have h2 := Except.error.inj he
          rw [← h2]
          left; rfl
      | some u =>
        cases fetch with
        | error m =>
          rw [resolve_of_fetch_error env url info u m hy hd]
          constructor
          · intro s hs; simp at hs
          · intro e he
            have h2 := Except.error.inj he
            rw [← h2]
            right; rfl
        | ok chunks =>
          rw [resolve_of_ok env url info u chunks hy hd]
          constructor
          · intro s hs
            have h2 := Except.ok.inj hs
            rw [← h2]
            exact ⟨rfl, rfl⟩
          · intro e he; simp at he
  · obtain ⟨ha, hb⟩ := url_check_split url hy
    rw [resolve_reject env url extract fetch ha hb]
    constructor
    · intro s hs; simp at hs
    · intro e he
      have h2 := Except.error.inj he
      rw [← h2]
      left; rfl

/-- C1 witness: on a concrete success the header and media type are as
stated, and on a concrete rejected request the status is 400 or 500. -/
theorem resolve_success_headers_or_error_status_w :
    ((resolve_audio none "https://youtube.com/watch?v=1"
        (Except.ok [("url", JVal.str "s")]) (Except.ok [[1], [2]])).1 =
      Except.ok ⟨[[1], [2]], "audio/mpeg",
        [("Content-Disposition", "attachment; filename=\"forensic-audio.mp3\"")]⟩) ∧
    ((⟨[[1], [2]], "audio/mpeg",
        [("Content-Disposition", "attachment; filename=\"forensic-audio.mp3\"")]⟩ :
          StreamResp).headers =
      [("Content-Disposition", "attachment; filename=\"forensic-audio.mp3\"")] ∧
     (⟨[[1], [2]], "audio/mpeg",
        [("Content-Disposition", "attachment; filename=\"forensic-audio.mp3\"")]⟩ :
          StreamResp).media_type = "audio/mpeg") ∧
    ((resolve_audio none "https://vimeo.com/1" (Except.ok []) (Except.ok [])).1 =
      Except.error ⟨400, "Only YouTube URLs are supported currently."⟩) ∧
    ((400 : Nat) = 400 ∨ (400 : Nat) = 500) :=
  ⟨by decide,
   (resolve_success_headers_or_error_status none "https://youtube.com/watch?v=1"
      (Except.ok [("url", JVal.str "s")]) (Except.ok [[1], [2]])).1
      ⟨[[1], [2]], "audio/mpeg",
        [("Content-Disposition", "attachment; filename=\"forensic-audio.mp3\"")]⟩
      (by decide),
   by decide,
   (resolve_success_headers_or_error_status none "https://vimeo.com/1"
      (Except.ok []) (Except.ok [])).2
      ⟨400, "Only YouTube URLs are supported currently."⟩ (by decide)⟩

/-- C2: on both /resolve and /info the extraction library is called at most
once, a raising extraction is translated to HTTP 400 (with the respective
detail prefix), and a raising upstream fetch is translated to HTTP 500. -/
theorem errors_translated_no_retry (env : Option String) (url : String)
    (extract : Except String InfoDict)
    (fetch : Except String (List (List Nat))) :
    extractCalls (resolve_audio env url extract fetch).2 ≤ 1 ∧
    extractCalls (get_video_info env url extract).2 ≤ 1 ∧
    (∀ m, extract = Except.error m →
      (get_video_info env url extract).1 =
        Except.error ⟨400, "Failed to fetch info: " ++ m⟩) ∧
    (∀ m, extract = Except.error m →
      (strContains url "youtube.com" || strContains url "youtu.be") = true →
      (resolve_audio env url extract fetch).1 =
        Except.error ⟨400, "Failed to extract audio: " ++ m⟩) ∧
    (∀ info u m, extract = Except.ok info → dictGet info "url" = some u →
      fetch = Except.error m →
      (strContains url "youtube.com" || strContains url "youtu.be") = true →
      (resolve_audio env url extract fetch).1 = Except.error ⟨500, m⟩) := by
  refine ⟨?_, ?_, ?_, ?_, ?_⟩
  · by_cases hy : (strContains url "youtube.com" || strContains url "youtu.be") = true
    · cases extract with
      | error m =>
        rw [resolve_of_extract_error env url fetch m hy]
        simp [extractCalls_optsTrace]
      | ok info =>
        cases hd : dictGet info "url" with
        | none =>
          rw [resolve_of_no_url env url fetch info hy hd]
          simp [extractCalls_optsTrace]
        | some u =>
          cases fetch with
          | error m =>
            rw [resolve_of_fetch_error env url info u m hy hd]
            simp [extractCalls_append_fetch, extractCalls_optsTrace]
          | ok chunks =>
            rw [resolve_of_ok env url info u chunks hy hd]
            simp [extractCalls_append_fetch, extractCalls_optsTrace]
    · obtain ⟨ha, hb⟩ := url_check_split url hy
      rw [resolve_reject env url extract fetch ha hb]
      simp [extractCalls]
  · rw [video_info_trace, extractCalls_optsTrace]
  · intro m hm
    subst hm
    rfl
  · intro m hm hy
    subst hm
    rw [resolve_of_extract_error env url fetch m hy]
  · intro info u m hinfo hfetch hd hy
    subst hinfo
    subst hd
    rw [resolve_of_fetch_error env url info u m hy hfetch]

/-- C2 witness: concrete requests exercising the single-call bound, the 400
translation on /info and /resolve, and the 500 translation of a fetch
failure. -/
theorem errors_translated_no_retry_w :
    extractCalls (resolve_audio none "https://youtube.com/watch?v=1"
      (Except.error "boom") (Except.ok [])).2 ≤ 1 ∧
    (get_video_info none "https://youtube.com/watch?v=1" (Except.error "boom")).1 =
      Except.error ⟨400, "Failed to fetch info: boom"⟩ ∧
    (resolve_audio none "https://youtube.com/watch?v=1" (Except.error "boom")
      (Except.ok [])).1 = Except.error ⟨400, "Failed to extract audio: boom"⟩ ∧
    (resolve_audio none "https://youtube.com/watch?v=1"
      (Except.ok [("url", JVal.str "s")]) (Except.error "net down")).1 =
      Except.error ⟨500, "net down"⟩ :=
  ⟨(errors_translated_no_retry none "https://youtube.com/watch?v=1"
      (Except.error "boom") (Except.ok [])).1,
   (errors_translated_no_retry none "https://youtube.com/watch?v=1"
      (Except.error "boom") (Except.ok [])).2.2.1 "boom" rfl,
   (errors_translated_no_retry none "https://youtube.com/watch?v=1"
      (Except.error "boom") (Except.ok [])).2.2.2.1 "boom" rfl (by decide),
   (errors_translated_no_retry none "https://youtube.com/watch?v=1"
      (Except.ok [("url", JVal.str "s")]) (Except.error "net down")).2.2.2.2
      [("url", JVal.str "s")] (JVal.str "s") "net down" rfl rfl rfl (by decide)⟩

/-- C3 counterexample: with YOUTUBE_COOKIES set to the empty string the
variable is set, yet the options take the mobile branch: no cookie file is
named and the player clients are ios and android, refuting the claim that
every environment with the variable set selects the web client. -/
theorem ydl_opts_empty_cookie_cex :
    (some "" : Option String).isSome = true ∧
    (get_ydl_opts (some "")).1.cookiefile = none ∧
    (get_ydl_opts (some "")).1.extractor_args.player_client = ["ios", "android"] ∧
    (get_ydl_opts (some "")).1.force_ipv4 = true := by decide

/-- C3 amended: the branch is on Python truthiness of the variable, so a
non-empty value selects the web client with a cookie file, while an unset
or empty value selects the mobile clients with IPv4 forcing; both branches
carry the spoofing headers and the bestaudio/best format selector. -/
theorem ydl_opts_strategy (env : Option String) :
    (truthy env = true →
      (get_ydl_opts env).1.extractor_args.player_client = ["web"] ∧
      (get_ydl_opts env).1.cookiefile = some "cookies.txt") ∧
    (truthy env = false →
      (get_ydl_opts env).1.extractor_args.player_client = ["ios", "android"] ∧
      (get_ydl_opts env).1.force_ipv4 = true) ∧
    (get_ydl_opts env).1.http_headers = spoofHeaders ∧
    (get_ydl_opts env).1.format = "bestaudio/best" := by
  cases h : truthy env <;> simp [get_ydl_opts, h]

/-- C3 witness: the amended claim evaluated on a non-empty cookie value and
on an unset variable. -/
theorem ydl_opts_strategy_w :
    truthy (some "abc") = true ∧
    ((get_ydl_opts (some "abc")).1.extractor_args.player_client = ["web"] ∧
     (get_ydl_opts (some "abc")).1.cookiefile = some "cookies.txt") ∧
    truthy none = false ∧
    ((get_ydl_opts none).1.extractor_args.player_client = ["ios", "android"] ∧
     (get_ydl_opts none).1.force_ipv4 = true) :=
  ⟨by decide, (ydl_opts_strategy (some "abc")).1 (by decide),
   by decide, (ydl_opts_strategy none).2.1 (by decide)⟩

/-- C4: the /info handler either returns (with status 200) a JSON object
whose keys are exactly title, thumbnail, duration, uploader and view_count,
or raises HTTP 400; no other status is produced. -/
theorem info_five_keys_or_400 (env : Option String) (url : String)
    (extract : Except String InfoDict) :
    (∀ r, (get_video_info env url extract).1 = Except.ok r →
      r.map Prod.fst = ["title", "thumbnail", "duration", "uploader", "view_count"]) ∧
    (∀ e, (get_video_info env url extract).1 = Except.error e → e.status = 400) := by
  cases extract with
  | error m =>
    constructor
    · intro r hr
      simp [get_video_info] at hr
    · intro e he
      have h2 := Except.error.inj he
      rw [← h2]
  | ok info =>
    constructor
    · intro r hr
      have h2 := Except.ok.inj hr
      rw [← h2]
      rfl
    · intro e he
      simp [get_video_info] at he

/-- C4 witness: the five keys on a concrete successful extraction, and the
400 status on a concrete raising extraction. -/
theorem info_five_keys_or_400_w :
    ((get_video_info none "u" (Except.ok [("title", JVal.str "t")])).1 =
      Except.ok [("title", JVal.str "t"), ("thumbnail", JVal.null),
        ("duration", JVal.null), ("uploader", JVal.null), ("view_count", JVal.null)]) ∧
    ([("title", JVal.str "t"), ("thumbnail", JVal.null), ("duration", JVal.null),
        ("uploader", JVal.null), ("view_count", JVal.null)].map Prod.fst =
      ["title", "thumbnail", "duration", "uploader", "view_count"]) ∧
    ((get_video_info none "u" (Except.error "boom")).1 =
      Except.error ⟨400, "Failed to fetch info: boom"⟩) ∧
    (⟨400, "Failed to fetch info: boom"⟩ : HTTPError).status = 400 :=
  ⟨by decide,
   (info_five_keys_or_400 none "u" (Except.ok [("title", JVal.str "t")])).1
     [("title", JVal.str "t"), ("thumbnail", JVal.null), ("duration", JVal.null),
      ("uploader", JVal.null), ("view_count", JVal.null)] (by decide),
   by decide,
   (info_five_keys_or_400 none "u" (Except.error "boom")).2
     ⟨400, "Failed to fetch info: boom"⟩ (by decide)⟩

/-- C5 counterexample: with YOUTUBE_COOKIES set to the empty string the
variable is set, yet no cookie file write happens and no cookie-file option
is passed, refuting the claim for every environment with the variable
set. -/
theorem cookie_write_skipped_empty_cex :
    (some "" : Option String).isSome = true ∧
    (get_ydl_opts (some "")).2 = [] ∧
    (get_ydl_opts (some "")).1.cookiefile = none := by decide

/-- C5 amended: for every non-empty value of YOUTUBE_COOKIES, that raw
value is written verbatim to cookies.txt, the write precedes the extraction
call in the trace of `get_best_audio_url`, and the options carry
cookies.txt in their cookie-file entry. -/
theorem cookie_written_before_extraction (v : String)
    (extract : Except String InfoDict) (hv : v ≠ "") :
    (get_ydl_opts (some v)).2 = [("cookies.txt", v)] ∧
    (get_ydl_opts (some v)).1.cookiefile = some "cookies.txt" ∧
    (get_best_audio_url (some v) extract).2 =
      [Event.fileWrite "cookies.txt" v,
       Event.extractCall (get_ydl_opts (some v)).1] := by
  have ht : truthy (some v) = true := by
    simp [truthy, hv]
  refine ⟨?_, ?_, ?_⟩
  · rw [ydl_writes_eq, ht]
    simp
  · simp [get_ydl_opts, ht]
  · rw [best_audio_trace, optsTrace_eq, ht]
    simp

/-- C5 witness: the amended claim evaluated on a concrete non-empty cookie
value. -/
theorem cookie_written_before_extraction_w :
    ("tok3n" : String) ≠ "" ∧
    ((get_ydl_opts (some "tok3n")).2 = [("cookies.txt", "tok3n")] ∧
     (get_ydl_opts (some "tok3n")).1.cookiefile = some "cookies.txt" ∧
     (get_best_audio_url (some "tok3n") (Except.ok [])).2 =
       [Event.fileWrite "cookies.txt" "tok3n",
        Event.extractCall (get_ydl_opts (some "tok3n")).1]) :=
  ⟨by decide,
   cookie_written_before_extraction "tok3n" (Except.ok []) (by decide)⟩

/-- C6: on every successful /resolve the delivered bytes are exactly the
concatenation of the fetched chunks, in order and unmodified. -/
theorem resolve_byte_passthrough (env : Option String) (url : String)
    (extract : Except String InfoDict) (chunks : List (List Nat))
    (s : StreamResp)
    (h : (resolve_audio env url extract (Except.ok chunks)).1 = Except.ok s) :
    s.chunks = chunks ∧ delivered s = chunks.flatten := by
  by_cases hy : (strContains url "youtube.com" || strContains url "youtu.be") = true
  · cases extract with
    | error m =>
      rw [resolve_of_extract_error env url (Except.ok chunks) m hy] at h
      simp at h
    | ok info =>
      cases hd : dictGet info "url" with
      | none =>
        rw [resolve_of_no_url env url (Except.ok chunks) info hy hd] at h
        simp at h
      | some u =>
        rw [resolve_of_ok env url info u chunks hy hd] at h
        have h2 := Except.ok.inj h
        rw [← h2]
        exact ⟨rfl, rfl⟩
  · obtain ⟨ha, hb⟩ := url_check_split url hy
    rw [resolve_reject env url extract (Except.ok chunks) ha hb] at h
    simp at h

/-- C6 witness: a concrete successful /resolve delivers the concatenated
upstream chunks unchanged. -/
theorem resolve_byte_passthrough_w :
    ((resolve_audio none "https://youtube.com/watch?v=1"
        (Except.ok [("url", JVal.str "s")]) (Except.ok [[10, 20], [30]])).1 =
      Except.ok ⟨[[10, 20], [30]], "audio/mpeg",
        [("Content-Disposition", "attachment; filename=\"forensic-audio.mp3\"")]⟩) ∧
    ((⟨[[10, 20], [30]], "audio/mpeg",
        [("Content-Disposition", "attachment; filename=\"forensic-audio.mp3\"")]⟩ :
          StreamResp).chunks = [[10, 20], [30]] ∧
     delivered ⟨[[10, 20], [30]], "audio/mpeg",
        [("Content-Disposition", "attachment; filename=\"forensic-audio.mp3\"")]⟩ =
       [[10, 20], [30]].flatten) ∧
    ([[10, 20], [30]] : List (List Nat)).flatten = [10, 20, 30] :=
  ⟨by decide,
   resolve_byte_passthrough none "https://youtube.com/watch?v=1"
     (Except.ok [("url", JVal.str "s")]) [[10, 20], [30]]
     ⟨[[10, 20], [30]], "audio/mpeg",
       [("Content-Disposition", "attachment; filename=\"forensic-audio.mp3\"")]⟩
     (by decide),
   by decide⟩

/-- C7: /health returns status 200 with exactly a status field and a
service field, independent of environment, query data, or anything else:
the handler is a constant function. -/
theorem health_constant (e1 e2 : Option String)
    (q1 q2 : List (String × String)) :
    health_check e1 q1 = health_check e2 q2 ∧
    (health_check e1 q1).1 = 200 ∧
    (health_check e1 q1).2.map Prod.fst = ["status", "service"] :=
  ⟨rfl, rfl, rfl⟩

/-- C8: a url containing neither youtube.com nor youtu.be is rejected by
/resolve with 400 and the stated detail, before any file write, extraction
call, or upstream fetch. -/
theorem resolve_rejects_non_youtube (env : Option String) (url : String)
    (extract : Except String InfoDict)
    (fetch : Except String (List (List Nat)))
    (h1 : strContains url "youtube.com" = false)
    (h2 : strContains url "youtu.be" = false) :
    resolve_audio env url extract fetch =
      (Except.error ⟨400, "Only YouTube URLs are supported currently."⟩, []) ∧
    extractCalls (resolve_audio env url extract fetch).2 = 0 ∧
    fetchCalls (resolve_audio env url extract fetch).2 = 0 := by
  have h := resolve_reject env url extract fetch h1 h2
  refine ⟨h, ?_, ?_⟩ <;> rw [h] <;> simp [extractCalls, fetchCalls]

/-- C8 witness: a concrete Vimeo URL is rejected without any side
effect. -/
theorem resolve_rejects_non_youtube_w :
    strContains "https://vimeo.com/123" "youtube.com" = false ∧
    strContains "https://vimeo.com/123" "youtu.be" = false ∧
    (resolve_audio none "https://vimeo.com/123" (Except.ok []) (Except.ok []) =
      (Except.error ⟨400, "Only YouTube URLs are supported currently."⟩, []) ∧
     extractCalls (resolve_audio none "https://vimeo.com/123"
       (Except.ok []) (Except.ok [])).2 = 0 ∧
     fetchCalls (resolve_audio none "https://vimeo.com/123"
       (Except.ok []) (Except.ok [])).2 = 0) :=
  ⟨by decide, by decide,
   resolve_rejects_non_youtube none "https://vimeo.com/123"
     (Except.ok []) (Except.ok []) (by decide) (by decide)⟩

/-- C9: `get_best_audio_url` returns exactly the value under the url key of
the extraction result when that key is present, and raises HTTP 400 with a
detail containing "No direct URL found" when it is absent. -/
theorem best_audio_returns_url_key (env : Option String) (info : InfoDict) :
    (∀ u, dictGet info "url" = some u →
      (get_best_audio_url env (Except.ok info)).1 = Except.ok u) ∧
    (dictGet info "url" = none →
      (get_best_audio_url env (Except.ok info)).1 =
        Except.error ⟨400, "Failed to extract audio: No direct URL found"⟩ ∧
      strContains "Failed to extract audio: No direct URL found"
        "No direct URL found" = true) := by
  constructor
  · intro u hd
    exact best_audio_of_url env info u hd
  · intro hd
    exact ⟨best_audio_of_no_url env info hd, by decide⟩

/-- C9 witness: a dictionary with a url key yields that value; one without
yields the 400 with the expected detail. -/
theorem best_audio_returns_url_key_w :
    dictGet [("url", JVal.str "https://cdn/a")] "url" = some (JVal.str "https://cdn/a") ∧
    (get_best_audio_url none (Except.ok [("url", JVal.str "https://cdn/a")])).1 =
      Except.ok (JVal.str "https://cdn/a") ∧
    dictGet [("duration", JVal.num 3)] "url" = none ∧
    ((get_best_audio_url none (Except.ok [("duration", JVal.num 3)])).1 =
      Except.error ⟨400, "Failed to extract audio: No direct URL found"⟩ ∧
     strContains "Failed to extract audio: No direct URL found"
       "No direct URL found" = true) :=
  ⟨by decide,
   (best_audio_returns_url_key none [("url", JVal.str "https://cdn/a")]).1
     (JVal.str "https://cdn/a") (by decide),
   by decide,
   (best_audio_returns_url_key none [("duration", JVal.num 3)]).2 (by decide)⟩

/-- C10: /info passes the options to the extraction call with the
ignore-errors switch enabled, and on every returned dictionary it answers
with status 200, defaulting the title to "Unknown Title" and the other four
fields to null when their keys are absent. -/
theorem info_ignores_errors_with_defaults (env : Option String) (url : String)
    (extract : Except String InfoDict) :
    Event.extractCall { (get_ydl_opts env).1 with ignoreerrors := true } ∈
      (get_video_info env url extract).2 ∧
    YdlOpts.ignoreerrors { (get_ydl_opts env).1 with ignoreerrors := true } = true ∧
    (∀ info, extract = Except.ok info →
      ∃ r, (get_video_info env url extract).1 = Except.ok r ∧
        dictGet r "title" = some ((dictGet info "title").getD (JVal.str "Unknown Title")) ∧
        dictGet r "thumbnail" = some ((dictGet info "thumbnail").getD JVal.null) ∧
        dictGet r "duration" = some ((dictGet info "duration").getD JVal.null) ∧
        dictGet r "uploader" = some ((dictGet info "uploader").getD JVal.null) ∧
        dictGet r "view_count" = some ((dictGet info "view_count").getD JVal.null)) := by
  refine ⟨?_, rfl, ?_⟩
  · rw [video_info_trace, optsTrace_eq]
    simp
  · intro info hinfo
    subst hinfo
    exact ⟨_, rfl, rfl, rfl, rfl, rfl, rfl⟩

/-- C10 witness: on the empty dictionary every field takes its default. -/
theorem info_ignores_errors_with_defaults_w :
    Event.extractCall { (get_ydl_opts none).1 with ignoreerrors := true } ∈
      (get_video_info none "u" (Except.ok [])).2 ∧
    (∃ r, (get_video_info none "u" (Except.ok [])).1 = Except.ok r ∧
      dictGet r "title" = some (JVal.str "Unknown Title") ∧
      dictGet r "thumbnail" = some JVal.null ∧
      dictGet r "duration" = some JVal.null ∧
      dictGet r "uploader" = some JVal.null ∧
      dictGet r "view_count" = some JVal.null) :=
  ⟨(info_ignores_errors_with_defaults none "u" (Except.ok [])).1,
   (info_ignores_errors_with_defaults none "u" (Except.ok [])).2.2 [] rfl⟩

end ForensicProxy
